import Mathlib

/-!
# Verification of the itvalleyorion orchestration core

Shallow embedding of the `itvalleyorion` Python SDK: the supervisor
orchestration loop (`Supervisor._call_orion_api`, supervisorsdk.py), tool
execution (`_execute_tool_call`) and agent delegation
(`_execute_agent_delegation`), together with the parts of the Python
standard library (`json.dumps`, `str` methods, `int()`/`float()`) and of
pydantic model construction that those functions rely on.

The structured-output extraction cascade
(`Analyst._parse_output_to_model`, analystsdk.py lines 308-392) is NOT
embedded as a runnable function, because it is not runnable in the
program: the f-string pattern literal on analystsdk.py line 352 violates
Python's f-string brace rule, so compiling analystsdk.py raises
`SyntaxError` and the module — and supervisorsdk.py, which imports it —
can never be imported.  For the claims about extraction this file instead
embeds the offending source literal byte for byte, together with a model
of the CPython f-string rule that rejects it, and proves the rejection.
-/

namespace ItValleyOrion

set_option maxRecDepth 16000

/-- JSON values (the data exchanged with the backend and passed to tools).
Numbers are modelled as rationals, covering both Python `int` and the
finite decimals that appear as JSON float literals. -/
inductive Json where
  | null : Json
  | bool (b : Bool) : Json
  | num (q : Rat) : Json
  | str (s : String) : Json
  | arr (elems : List Json) : Json
  | obj (members : List (String × Json)) : Json
deriving Repr

/-- Numeric value of a list of decimal digits. -/
def natOfDigits (ds : List Char) : Nat :=
  ds.foldl (fun acc c => 10 * acc + (c.toNat - 48)) 0

/-- Split off the maximal leading run of decimal digits. -/
def takeDigits (cs : List Char) : List Char × List Char :=
  (cs.takeWhile Char.isDigit, cs.dropWhile Char.isDigit)

/-- Escape one character for a JSON string literal (model of `json.dumps`
string escaping, for the characters that occur in this development). -/
def escapeJsonChar (c : Char) : String :=
  if c = '"' then "\\\""
  else if c = '\\' then "\\\\"
  else if c = '\n' then "\\n"
  else if c = '\t' then "\\t"
  else if c = '\r' then "\\r"
  else String.singleton c

/-- Render a JSON string literal with quotes and escapes. -/
def renderJsonString (s : String) : String :=
  "\"" ++ String.join (s.toList.map escapeJsonChar) ++ "\""

/-- Left-pad a digit string with zeros to the given width. -/
def padZeros (s : String) (width : Nat) : String :=
  String.mk (List.replicate (width - s.length) '0') ++ s

/-- Render a JSON number: integers without a decimal point, non-integral
rationals by their finite decimal expansion (every float in this
development has a power-of-ten denominator). -/
def renderJsonNum (q : Rat) : String :=
  if q.den = 1 then toString q.num
  else
    let sign := if q.num < 0 then "-" else ""
    let n := q.num.natAbs
    let d := q.den
    match (List.range 40).findSome?
        (fun k => if (n * 10 ^ k) % d = 0 then some k else none) with
    | some k =>
      let scaled := n * 10 ^ k / d
      sign ++ toString (scaled / 10 ^ k) ++ "." ++
        padZeros (toString (scaled % 10 ^ k)) k
    | none => sign ++ toString n ++ "/" ++ toString d

mutual

/-- Model of Python's `json.dumps` applied to a JSON-serializable value
(default separators `", "` and `": "`). -/
def renderJson : Json → String
  | .null => "null"
  | .bool true => "true"
  | .bool false => "false"
  | .num q => renderJsonNum q
  | .str s => renderJsonString s
  | .arr xs => "[" ++ renderJsonElemsStr xs ++ "]"
  | .obj kvs => "\x7b" ++ renderJsonMembersStr kvs ++ "\x7d"

/-- Render array elements, comma-separated. -/
def renderJsonElemsStr : List Json → String
  | [] => ""
  | [x] => renderJson x
  | x :: y :: xs => renderJson x ++ ", " ++ renderJsonElemsStr (y :: xs)

/-- Render object members, comma-separated. -/
def renderJsonMembersStr : List (String × Json) → String
  | [] => ""
  | [(k, v)] => renderJsonString k ++ ": " ++ renderJson v
  | (k, v) :: m :: rest =>
    renderJsonString k ++ ": " ++ renderJson v ++ ", " ++
      renderJsonMembersStr (m :: rest)

end

/-- Python `str.strip()` whitespace (`\s` character class of `re`, ASCII). -/
def isPyWs (c : Char) : Bool :=
  c = ' ' || c = '\t' || c = '\n' || c = '\r' ||
    c = Char.ofNat 11 || c = Char.ofNat 12

/-- Model of Python `str.strip()`: remove leading and trailing whitespace. -/
def pyStrip (s : String) : String :=
  String.mk (((s.toList.dropWhile isPyWs).reverse.dropWhile isPyWs).reverse)

/-- Model of Python `int(s)` on a string: optional sign, decimal digits,
surrounding whitespace allowed; `none` models a raised `ValueError`. -/
def pyInt (s : String) : Option Int :=
  let cs := (pyStrip s).toList
  let (neg, cs1) : Bool × List Char :=
    match cs with
    | '-' :: r => (true, r)
    | '+' :: r => (false, r)
    | r => (false, r)
  if !cs1.isEmpty && cs1.all Char.isDigit then
    some ((if neg then -1 else 1) * (natOfDigits cs1 : Int))
  else none

/-- Finish parsing a Python float: optional exponent, then end of input. -/
def pyFloatFinish (q : Rat) (neg : Bool) (cs : List Char) : Option Rat :=
  let signed := if neg then -q else q
  match cs with
  | [] => some signed
  | 'e' :: r | 'E' :: r =>
    let (esign, r1) : Bool × List Char :=
      match r with
      | '+' :: t => (false, t)
      | '-' :: t => (true, t)
      | t => (false, t)
    let (ds, r2) := takeDigits r1
    if ds.isEmpty || !r2.isEmpty then none
    else
      some (if esign then signed / ((10 : Nat) ^ natOfDigits ds : Nat)
            else signed * ((10 : Nat) ^ natOfDigits ds : Nat))
  | _ => none

/-- Model of Python `float(s)` on a string, for finite decimal notations
(`inf`/`nan` spellings are not modelled; they never arise in this
development); `none` models a raised `ValueError`. -/
def pyFloat (s : String) : Option Rat :=
  let cs := (pyStrip s).toList
  let (neg, cs1) : Bool × List Char :=
    match cs with
    | '-' :: r => (true, r)
    | '+' :: r => (false, r)
    | r => (false, r)
  let (ip, r1) := takeDigits cs1
  match r1 with
  | '.' :: r2 =>
    let (fp, r3) := takeDigits r2
    if ip.isEmpty && fp.isEmpty then none
    else
      pyFloatFinish
        ((natOfDigits ip : Nat) +
          (natOfDigits fp : Nat) / ((10 : Nat) ^ fp.length : Nat)) neg r3
  | _ =>
    if ip.isEmpty then none
    else pyFloatFinish (natOfDigits ip : Nat) neg r1

/-- Field value types appearing in the pydantic models of this code base
(`str`, `int`, `float`, `bool`, `List[str]`). -/
inductive FieldType where
  | tStr : FieldType
  | tInt : FieldType
  | tFloat : FieldType
  | tBool : FieldType
  | tListStr : FieldType
deriving Repr, DecidableEq

/-- A pydantic model class: its `__name__` and its `__fields__` in
declaration order (every field required, as in the models of this repo). -/
structure PModel where
  name : String
  fields : List (String × FieldType)
deriving Repr

/-- A validated model instance: field assignments in field order, with
values normalized to JSON form. -/
abbrev Inst := List (String × Json)

/-- Truncate a rational toward zero (Python `int(float)`). -/
def ratTrunc (q : Rat) : Int :=
  if q < 0 then q.ceil else q.floor

/-- Python `dict` lookup on an object member list (keys are unique in the
argument dictionaries built by this development). -/
def lookupField (kvs : List (String × Json)) (k : String) : Option Json :=
  (kvs.find? (fun p => p.1 == k)).map (·.2)

/-- Modelled pydantic (v1) field validation with its basic coercions:
numeric strings and floats coerce to `int`, numbers to `float`, etc.
Returns the normalized value, or `none` on a validation failure. -/
def coerceField : FieldType → Json → Option Json
  | .tStr, .str s => some (.str s)
  | .tInt, .num q => some (.num (ratTrunc q : Int))
  | .tInt, .bool b => some (.num (if b then 1 else 0))
  | .tInt, .str s => (pyInt s).map (fun n => .num (n : Int))
  | .tFloat, .num q => some (.num q)
  | .tFloat, .bool b => some (.num (if b then 1 else 0))
  | .tFloat, .str s => (pyFloat s).map .num
  | .tBool, .bool b => some (.bool b)
  | .tListStr, .arr xs =>
    if xs.all (fun x => match x with | .str _ => true | _ => false) then
      some (.arr xs)
    else none
  | _, _ => none

/-- Python type name of a JSON value (used in the modelled `TypeError`
message for `Model(**data)` with a non-mapping). -/
def jsonTypeName : Json → String
  | .null => "NoneType"
  | .bool _ => "bool"
  | .num _ => "number"
  | .str _ => "str"
  | .arr _ => "list"
  | .obj _ => "dict"

/-- Modelled pydantic (v1) model construction `Model(**data)`: every
declared field must be present (all fields of the models in this repo are
required) and coercible; extra keys are ignored.  The `Except.error`
carries a deterministic rendering of `str(e)` for the raised
`ValidationError`/`TypeError`. -/
def validateModel (m : PModel) (data : Json) : Except String Inst :=
  match data with
  | .obj kvs =>
    let results := m.fields.map (fun f =>
      match lookupField kvs f.1 with
      | none => Sum.inr (f.1 ++ ": field required")
      | some v =>
        match coerceField f.2 v with
        | some v' => Sum.inl (f.1, v')
        | none => Sum.inr (f.1 ++ ": invalid type"))
    let errs := results.filterMap (fun r =>
      match r with | .inr e => some e | .inl _ => none)
    if errs.isEmpty then
      .ok (results.filterMap (fun r =>
        match r with | .inl kv => some kv | .inr _ => none))
    else
      .error ("validation error for " ++ m.name ++ ": " ++
        String.intercalate "; " errs)
  | _ =>
    .error ("argument of type '" ++ jsonTypeName data ++ "' is not a mapping")

/-- A value returned by a registered tool's callable: either a
JSON-serializable value or an object `json.dumps` rejects. -/
inductive PyVal where
  | val (j : Json) : PyVal
  | unserializable (typeName : String) : PyVal

/-- `json.dumps` on a tool's return value; the error is the `TypeError`
message raised for unserializable objects. -/
def jsonDumps : PyVal → Except String String
  | .val j => .ok (renderJson j)
  | .unserializable t =>
    .error ("Object of type " ++ t ++ " is not JSON serializable")

/-- One registered tool, as stored in `_REGISTERED_TOOLS` / `self.tools`:
name, description, parameter model, and the callable (whose `Except.error`
models a raised exception carrying `str(e)`). -/
structure ToolInfo where
  name : String
  description : String
  parameters : PModel
  function : Inst → Except String PyVal

/-- A tool call taken from a backend response. -/
structure ToolCall where
  id : String
  name : String
  arguments : List (String × Json)

/-- What `_execute_tool_call` returns: the serialized result string on
success, or the `{"error": ...}` dictionary. -/
inductive ToolOutcome where
  | ok (s : String) : ToolOutcome
  | err (msg : String) : ToolOutcome
deriving Repr

/-- `Supervisor._execute_tool_call` (supervisorsdk.py lines 287-317) and the
textually identical `Analyst._execute_tool_call` (analystsdk.py lines
276-306): look the tool up by name, validate the arguments, call it,
serialize; every exception becomes an error value. -/
def executeToolCall (tools : List ToolInfo) (tc : ToolCall) : ToolOutcome :=
  match tools.find? (fun t => t.name == tc.name) with
  | none => .err ("Ferramenta '" ++ tc.name ++ "' não encontrada")
  | some toolInfo =>
    match validateModel toolInfo.parameters (.obj tc.arguments) with
    | .error e =>
      .err ("Erro ao executar ferramenta '" ++ tc.name ++ "': " ++ e)
    | .ok argDict =>
      match toolInfo.function argDict with
      | .error e =>
        .err ("Erro ao executar ferramenta '" ++ tc.name ++ "': " ++ e)
      | .ok result =>
        match jsonDumps result with
        | .error e =>
          .err ("Erro ao executar ferramenta '" ++ tc.name ++ "': " ++ e)
        | .ok s => .ok s

/-- What a supervised agent's `run` returns: an `AgentResult`, a pydantic
model instance, or some other object (converted via `str`). -/
inductive AgentRunVal where
  | agentResult (content : String) : AgentRunVal
  | structured (inst : Inst) : AgentRunVal
  | other (s : String) : AgentRunVal

/-- A supervised agent as seen by the delegation machinery: its Python
object identity `id(agent)`, its name, and its `run` coroutine (an
`Except.error` models a raised exception carrying `str(e)`). -/
structure SupAgent where
  pyId : Nat
  name : String
  run : String → Except String AgentRunVal

/-- A delegation request taken from a backend response. -/
structure Delegation where
  id : String
  agent_id : Nat
  input : String

/-- `Supervisor._execute_agent_delegation` (supervisorsdk.py lines
319-346): resolve the agent by `id()`, run it, normalize the result to a
string; an unknown id or a raised exception becomes an error string. -/
def executeAgentDelegation (agents : List SupAgent) (d : Delegation) :
    String :=
  match agents.find? (fun a => a.pyId == d.agent_id) with
  | none => "Erro: Agente com ID " ++ toString d.agent_id ++ " não encontrado"
  | some agent =>
    match agent.run d.input with
    | .error e => "Erro ao executar o agente " ++ agent.name ++ ": " ++ e
    | .ok (.agentResult content) => content
    | .ok (.structured inst) => renderJson (.obj inst)
    | .ok (.other s) => s

/-- A backend response (`result = response.json()`): content plus the
optional `tool_calls` and `agent_delegations` keys (`some []` models a
present key holding an empty list — the loop tests key presence, not
emptiness). -/
structure OrionResponse where
  content : String
  tool_calls : Option (List ToolCall)
  agent_delegations : Option (List Delegation)

/-- One `{tool_call_id, result}` entry of `payload["tool_results"]`. -/
structure ToolResultEntry where
  tool_call_id : String
  result : ToolOutcome

/-- One `{delegation_id, result}` entry of
`payload["delegation_results"]`. -/
structure DelegationResultEntry where
  delegation_id : String
  result : String

/-- The request payload of `Supervisor._call_orion_api`: the static fields
set before the loop, plus the two result keys the loop may add.  The same
dictionary object is mutated and re-sent, so added keys persist. -/
structure Payload where
  prompt : String
  max_tokens : Nat
  agent_type : String
  tools : Json
  supervised_agents : Json
  output_schema : Option Json
  tool_results : Option (List ToolResultEntry)
  delegation_results : Option (List DelegationResultEntry)

/-- The backend collaborator, as a sequence of responses: `env n` is the
response to the `n`-th POST (0-based).  This matches the claims'
quantification over "every sequence of backend responses". -/
abbrev Backend := Nat → OrionResponse

/-- Result of one iteration of the `while` body: the (possibly mutated)
payload, the current response, the number of POSTs so far, the payloads
POSTed during this iteration in order, and `needs_more_processing`. -/
structure IterOut where
  payload : Payload
  result : OrionResponse
  sent : Nat
  posts : List Payload
  needs : Bool

/-- The body of the `while` loop in `Supervisor._call_orion_api`
(supervisorsdk.py lines 243-283): `needs_more_processing = False`; if the
current response carries `tool_calls`, execute them, store `tool_results`
in the payload and re-send (the response is replaced); then, if the
now-current response carries `agent_delegations`, execute them, store
`delegation_results` and re-send. -/
def iterBody (env : Backend) (tools : List ToolInfo)
    (agents : List SupAgent) (payload : Payload) (result : OrionResponse)
    (sent : Nat) : IterOut :=
  let afterTools : Payload × OrionResponse × Nat × List Payload × Bool :=
    match result.tool_calls with
    | none => (payload, result, sent, [], false)
    | some tcs =>
      let toolResults := tcs.map (fun tc =>
        ToolResultEntry.mk tc.id (executeToolCall tools tc))
      let p := { payload with tool_results := some toolResults }
      (p, env sent, sent + 1, [p], true)
  match afterTools with
  | (p, r, s, posts, needs) =>
    match r.agent_delegations with
    | none => ⟨p, r, s, posts, needs⟩
    | some ds =>
      let delegationResults := ds.map (fun d =>
        DelegationResultEntry.mk d.id (executeAgentDelegation agents d))
      let p2 := { p with delegation_results := some delegationResults }
      ⟨p2, env s, s + 1, posts ++ [p2], true⟩

/-- The `while needs_more_processing and current_iteration < max_iterations`
loop, with the remaining iteration budget as fuel.  Returns the final
`result`, the total number of POSTs, and the payloads POSTed inside the
loop. -/
def runLoop (env : Backend) (tools : List ToolInfo) (agents : List SupAgent) :
    Nat → Payload → OrionResponse → Nat → OrionResponse × Nat × List Payload
  | 0, _, r, sent => (r, sent, [])
  | fuel + 1, p, r, sent =>
    let o := iterBody env tools agents p r sent
    if o.needs then
      let rec' := runLoop env tools agents fuel o.payload o.result o.sent
      (rec'.1, rec'.2.1, o.posts ++ rec'.2.2)
    else (o.result, o.sent, o.posts)

/-- `Supervisor._call_orion_api` (supervisorsdk.py lines 209-285): build the
payload, POST it, then run the bounded loop (`max_iterations = 10`).
Returns the final `result`, the total POST count, and the full list of
POSTed payloads in order. -/
def callOrionApi (env : Backend) (tools : List ToolInfo)
    (agents : List SupAgent) (prompt : String) (toolsManifest : Json)
    (supervisedAgentsManifest : Json) (outputSchema : Option Json) :
    OrionResponse × Nat × List Payload :=
  let payload : Payload :=
    { prompt := prompt
      max_tokens := 1500
      agent_type := "supervisor"
      tools := toolsManifest
      supervised_agents := supervisedAgentsManifest
      output_schema := outputSchema
      tool_results := none
      delegation_results := none }
  let result := env 0
  let out := runLoop env tools agents 10 payload result 1
  (out.1, out.2.1, payload :: out.2.2)

/-! ### Substring containment -/

/-- `needle` occurs contiguously inside `hay` (Python `needle in hay`). -/
def strContains (hay needle : String) : Prop :=
  needle.toList <:+: hay.toList

instance (hay needle : String) : Decidable (strContains hay needle) :=
  inferInstanceAs (Decidable (needle.toList <:+: hay.toList))

/-! ### Concrete fixtures used by witnesses and counterexamples -/

/-- Parameter model of the example tool `get_price(ticker: str)`. -/
def getPriceParams : PModel := ⟨"get_price_params", [("ticker", .tStr)]⟩

/-- A registered tool whose callable always raises (`str(e) = "boom"`). -/
def raisingGetPrice : ToolInfo :=
  ⟨"get_price", "Busca o preço de um ticker.", getPriceParams,
   fun _ => .error "boom"⟩

/-- A registered tool whose return value `json.dumps` rejects. -/
def unserializableTool : ToolInfo :=
  ⟨"get_handle", "Retorna um objeto interno.", ⟨"get_handle_params", []⟩,
   fun _ => .ok (.unserializable "set")⟩

/-- A call to `get_price` with valid arguments. -/
def getPriceCall : ToolCall := ⟨"call-1", "get_price", [("ticker", .str "XYZ")]⟩

/-- A call to `get_handle` with (vacuously valid) empty arguments. -/
def getHandleCall : ToolCall := ⟨"call-2", "get_handle", []⟩

/-- A tool call referencing a name no tool list of the fixtures holds. -/
def c2ToolCall : ToolCall := ⟨"t1", "mytool", []⟩

/-- A delegation to the (unregistered) agent id 42. -/
def c2Delegation : Delegation := ⟨"d1", 42, "task"⟩

/-- A backend whose first response carries both a tool call and a
delegation, and whose later responses are terminal. -/
def c2Backend : Backend := fun n =>
  if n = 0 then ⟨"a", some [c2ToolCall], some [c2Delegation]⟩
  else ⟨"done", none, none⟩

/-- A response generator that always returns both keys (the forced-cap
scenario of the spec). -/
def alwaysBothBackend : Backend := fun _ => ⟨"x", some [], some []⟩

/-- A supervised agent with Python object id 7. -/
def redator : SupAgent := ⟨7, "Redator", fun _ => .ok (.agentResult "texto")⟩

/-- A delegation whose `agent_id` (42) resolves to no supervised agent. -/
def c6Delegation : Delegation := ⟨"d9", 42, "tarefa"⟩

/-- A response carrying only the unknown-target delegation. -/
def c6Response : OrionResponse := ⟨"r", none, some [c6Delegation]⟩

/-- A backend for the C6 witness (content of later responses irrelevant). -/
def c6Backend : Backend := fun _ => ⟨"next", none, none⟩

/-- A fresh payload as built at the top of `_call_orion_api`. -/
def freshPayload : Payload := ⟨"p", 1500, "supervisor", .null, .null, none, none, none⟩

/-! ### The f-string literal that aborts compilation of analystsdk.py

`analystsdk.py` line 352 builds the first key-value-scan pattern as a
Python f-string.  Inside an f-string an unescaped brace opens a
replacement field; literal braces must be doubled.  The line's object
alternative is written with single braces, so `\x7b` opens a replacement
field whose expression text `.*?\\` contains a backslash — which CPython
rejects at compile time ("f-string expression part cannot include a
backslash"; under PEP 701 the fragment is still rejected, as `.*?\\` is
not a valid expression).  Compiling the module therefore raises
`SyntaxError`, and neither analystsdk nor any module importing it (the
package `__init__` and supervisorsdk.py among them) can ever be
loaded. -/

/-- Scanner for the brace discipline of a Python f-string literal body
(CPython's `fstring_find_expr`, 3.11 behaviour): `\x7b\x7b` and
`\x7d\x7d` are escaped literal braces, a single `\x7b` opens a
replacement field running to the matching `\x7d`, a single `\x7d`
outside a field is rejected, and a backslash inside the expression part
of a replacement field is rejected.  The flag records whether the scan is
inside a replacement field.  Nested braces, quoted strings and format
specs inside expressions do not occur in the literals under study and are
not modelled.  Returns `false` exactly when CPython raises
`SyntaxError` for the literal. -/
def fstringScan : Bool → List Char → Bool
  | false, [] => true
  | false, '{' :: '{' :: rest => fstringScan false rest
  | false, '}' :: '}' :: rest => fstringScan false rest
  | false, '{' :: rest => fstringScan true rest
  | false, '}' :: _ => false
  | false, _ :: rest => fstringScan false rest
  | true, [] => false
  | true, '\\' :: _ => false
  | true, '}' :: rest => fstringScan false rest
  | true, _ :: rest => fstringScan true rest

/-- Whether CPython accepts a string as the body of an f-string literal. -/
def pyFStringOk (s : String) : Bool := fstringScan false s.toList

/-- The body of the f-string literal on analystsdk.py line 352 (the first
pattern of the key-value scan), byte for byte as it stands between the
quotes in the source file. -/
def analystLine352Pattern : String :=
  "\"\x7bfield_name\x7d\"\\\\s*:\\\\s*(\".*?\"|\\\\d+(\\\\.\\\\d+)?|\\\\[.*?\\\\]|\\\\\x7b.*?\\\\\x7d|true|false|null)"

/-- The prefix of the line-352 body that stops just before the object
alternative. -/
def analystLine352Head : String :=
  "\"\x7bfield_name\x7d\"\\\\s*:\\\\s*(\".*?\"|\\\\d+(\\\\.\\\\d+)?|\\\\[.*?\\\\]|"

/-- The object alternative of line 352 on its own: the fragment whose
unescaped brace opens a replacement field with a backslash inside. -/
def analystFStringObjectAlt : String := "\\\\\x7b.*?\\\\\x7d"

/-- Line 352 with the braces of the object alternative doubled — the one
spelling Python would accept for the evidently intended regex
`\\\x7b.*?\\\x7d`; the source file does not contain it. -/
def analystLine352PatternFixed : String :=
  "\"\x7bfield_name\x7d\"\\\\s*:\\\\s*(\".*?\"|\\\\d+(\\\\.\\\\d+)?|\\\\[.*?\\\\]|\\\\\x7b\x7b.*?\\\\\x7d\x7d|true|false|null)"

/-- The modules imported at the top of supervisorsdk.py (lines 1-9, in
order): supervisorsdk executes `from .analystsdk import Analyst, tool`
at module load, so it cannot be loaded unless analystsdk compiles. -/
def supervisorsdkImports : List String :=
  ["json", "asyncio", "typing", "pydantic", "..auth", ".operatorsdk",
   ".analystsdk", "requests"]

/-! ### Helper lemmas -/

/-- `String.toList` distributes over append. -/
theorem string_toList_append (a b : String) :
    (a ++ b).toList = a.toList ++ b.toList := by
  cases a; cases b; rfl

/-- String append is associative. -/
theorem string_append_assoc (a b c : String) :
    (a ++ b) ++ c = a ++ (b ++ c) := by
  cases a; cases b; cases c
  exact congrArg String.mk (List.append_assoc ..)

/-- The middle part of a three-way concatenation is contained in it. -/
theorem strContains_middle (x y z : String) : strContains (x ++ y ++ z) y := by
  unfold strContains
  rw [string_toList_append, string_toList_append]
  exact List.infix_append _ _ _

/-- The right part of a concatenation is contained in it. -/
theorem strContains_right (x y : String) : strContains (x ++ y) y := by
  unfold strContains
  rw [string_toList_append]
  exact ⟨x.toList, [], by simp⟩

/-- One loop-body execution: the current response is always the response to
the last POST, and the POST count grows by at most 2. -/
theorem iterBody_spec (env : Backend) (tools : List ToolInfo)
    (agents : List SupAgent) (payload : Payload) (result : OrionResponse)
    (sent : Nat) (hr : result = env (sent - 1)) :
    (iterBody env tools agents payload result sent).result =
      env ((iterBody env tools agents payload result sent).sent - 1) ∧
    sent ≤ (iterBody env tools agents payload result sent).sent ∧
    (iterBody env tools agents payload result sent).sent ≤ sent + 2 := by
  unfold iterBody
  cases htc : result.tool_calls with
  | none =>
    cases hd : result.agent_delegations with
    | none => simpa [htc, hd] using hr
    | some ds => simp [htc, hd]
  | some tcs =>
    cases hd : (env sent).agent_delegations with
    | none => simp [htc, hd]
    | some ds => simp [htc, hd]; omega

/-- The bounded loop: starting from the response to the last POST, it
performs at most `2 * fuel` further POSTs and returns the response to the
final POST unchanged. -/
theorem runLoop_spec (env : Backend) (tools : List ToolInfo)
    (agents : List SupAgent) :
    ∀ (fuel : Nat) (p : Payload) (r : OrionResponse) (sent : Nat),
      r = env (sent - 1) →
      (runLoop env tools agents fuel p r sent).1 =
        env ((runLoop env tools agents fuel p r sent).2.1 - 1) ∧
      sent ≤ (runLoop env tools agents fuel p r sent).2.1 ∧
      (runLoop env tools agents fuel p r sent).2.1 ≤ sent + 2 * fuel := by
  intro fuel
  induction fuel with
  | zero =>
    intro p r sent hr
    simpa [runLoop] using hr
  | succ n ih =>
    intro p r sent hr
    have hib := iterBody_spec env tools agents p r sent hr
    have hrec := ih (iterBody env tools agents p r sent).payload
      (iterBody env tools agents p r sent).result
      (iterBody env tools agents p r sent).sent hib.1
    cases hn : (iterBody env tools agents p r sent).needs with
    | true =>
      have hfst : (runLoop env tools agents (n + 1) p r sent).1 =
          (runLoop env tools agents n (iterBody env tools agents p r sent).payload
            (iterBody env tools agents p r sent).result
            (iterBody env tools agents p r sent).sent).1 := by
        simp [runLoop, hn]
      have hsnd : (runLoop env tools agents (n + 1) p r sent).2.1 =
          (runLoop env tools agents n (iterBody env tools agents p r sent).payload
            (iterBody env tools agents p r sent).result
            (iterBody env tools agents p r sent).sent).2.1 := by
        simp [runLoop, hn]
      refine ⟨?_, ?_, ?_⟩
      · rw [hfst, hsnd]; exact hrec.1
      · rw [hsnd]; exact le_trans hib.2.1 hrec.2.1
      · rw [hsnd]
        have h1 := hrec.2.2
        have h2 := hib.2.2
        omega
    | false =>
      have hfst : (runLoop env tools agents (n + 1) p r sent).1 =
          (iterBody env tools agents p r sent).result := by
        simp [runLoop, hn]
      have hsnd : (runLoop env tools agents (n + 1) p r sent).2.1 =
          (iterBody env tools agents p r sent).sent := by
        simp [runLoop, hn]
      refine ⟨?_, ?_, ?_⟩
      · rw [hfst, hsnd]; exact hib.1
      · rw [hsnd]; exact hib.2.1
      · rw [hsnd]
        have h2 := hib.2.2
        omega

/-- C1 (amended): for every sequence of backend responses, one
orchestration run (`Supervisor._call_orion_api`) performs at most 10 loop
iterations and hence at most 21 backend round-trips (1 initial POST plus
up to 2 per iteration — not 10 round-trips as claimed); when iteration
stops (cap reached or nothing left to process) the last response received
is returned as-is, not as an error. -/
theorem c1_iteration_cap_last_response_returned (env : Backend)
    (tools : List ToolInfo) (agents : List SupAgent) (prompt : String)
    (toolsManifest supervisedAgentsManifest : Json)
    (outputSchema : Option Json) :
    (callOrionApi env tools agents prompt toolsManifest
      supervisedAgentsManifest outputSchema).2.1 ≤ 21 ∧
    (callOrionApi env tools agents prompt toolsManifest
      supervisedAgentsManifest outputSchema).1 =
      env ((callOrionApi env tools agents prompt toolsManifest
        supervisedAgentsManifest outputSchema).2.1 - 1) := by
  simp only [callOrionApi]
  have h := runLoop_spec env tools agents 10
    { prompt := prompt
      max_tokens := 1500
      agent_type := "supervisor"
      tools := toolsManifest
      supervised_agents := supervisedAgentsManifest
      output_schema := outputSchema
      tool_results := none
      delegation_results := none }
    (env 0) 1 rfl
  have h1 := h.2.2
  exact ⟨by omega, h.1⟩

/-- C1 counterexample: a response generator that always returns both a
tool-call list and a delegation list forces 21 backend round-trips
(1 initial + 2 in each of the 10 iterations), refuting the claimed bound
of 10 round-trips per run. -/
theorem c1_counterexample :
    (callOrionApi alwaysBothBackend [] [] "p" .null .null none).2.1 = 21 ∧
    ¬ ((callOrionApi alwaysBothBackend [] [] "p" .null .null none).2.1 ≤ 10) :=
  ⟨rfl, by decide⟩

/-- C2 (amended): when one backend response carries both a tool-call list
and a delegation list, the iteration first executes only the tool calls and
re-sends a payload carrying the tool results with `delegation_results`
unchanged (not both result sets together); delegation handling in the same
iteration then inspects the response to that re-send, not the original
response — so when the re-send's response carries no delegations, the
original delegations are dropped without being executed. -/
theorem c2_tool_results_sent_before_delegations (env : Backend)
    (tools : List ToolInfo) (agents : List SupAgent) (payload : Payload)
    (result : OrionResponse) (sent : Nat) (tcs : List ToolCall)
    (ds : List Delegation)
    (htc : result.tool_calls = some tcs)
    (hds : result.agent_delegations = some ds)
    (hnext : (env sent).agent_delegations = none) :
    (iterBody env tools agents payload result sent).posts.map
      (fun p => p.tool_results) =
      [some (tcs.map (fun tc => ⟨tc.id, executeToolCall tools tc⟩))] ∧
    (iterBody env tools agents payload result sent).posts.map
      (fun p => p.delegation_results) = [payload.delegation_results] ∧
    (iterBody env tools agents payload result sent).result = env sent ∧
    (iterBody env tools agents payload result sent).needs = true := by
  refine ⟨?_, ?_, ?_, ?_⟩ <;> simp [iterBody, htc, hnext]

/-- C2 witness: the amended behaviour at a concrete response carrying both
a tool call and a delegation, with a delegation-free follow-up response. -/
theorem c2_witness :
    (iterBody c2Backend [] [] freshPayload (c2Backend 0) 1).posts.map
      (fun p => p.tool_results) =
      [some [⟨"t1", executeToolCall [] c2ToolCall⟩]] ∧
    (iterBody c2Backend [] [] freshPayload (c2Backend 0) 1).posts.map
      (fun p => p.delegation_results) = [freshPayload.delegation_results] ∧
    (iterBody c2Backend [] [] freshPayload (c2Backend 0) 1).result =
      c2Backend 1 ∧
    (iterBody c2Backend [] [] freshPayload (c2Backend 0) 1).needs = true :=
  c2_tool_results_sent_before_delegations c2Backend [] [] freshPayload
    (c2Backend 0) 1 [c2ToolCall] [c2Delegation] rfl rfl rfl

/-- C2 counterexample: with a first response carrying both a tool call and
a delegation and a terminal second response, the run makes two POSTs and
neither POSTed payload ever carries any delegation results — the original
delegation is dropped, not executed and not merged into the next payload. -/
theorem c2_counterexample :
    (c2Backend 0).tool_calls = some [c2ToolCall] ∧
    (c2Backend 0).agent_delegations = some [c2Delegation] ∧
    ((callOrionApi c2Backend [] [] "p" .null .null none).2.2.map
      (fun p => p.delegation_results)) = [none, none] :=
  ⟨rfl, rfl, rfl⟩

/-- C3: for every registered tool and argument mapping, if the tool's
callable raises, or if its return value fails JSON serialization, tool
execution returns a structured error value whose message contains the tool
name and the exception message; the exception is never propagated (the
function totally returns an outcome). -/
theorem c3_tool_failures_become_error_values (tools : List ToolInfo)
    (tc : ToolCall) (ti : ToolInfo) (args : Inst) (em t : String)
    (hfind : tools.find? (fun tl => tl.name == tc.name) = some ti)
    (hargs : validateModel ti.parameters (.obj tc.arguments) = .ok args) :
    (ti.function args = .error em →
      executeToolCall tools tc =
        .err ("Erro ao executar ferramenta '" ++ tc.name ++ "': " ++ em) ∧
      strContains
        ("Erro ao executar ferramenta '" ++ tc.name ++ "': " ++ em)
        tc.name ∧
      strContains
        ("Erro ao executar ferramenta '" ++ tc.name ++ "': " ++ em) em) ∧
    (ti.function args = .ok (.unserializable t) →
      executeToolCall tools tc =
        .err ("Erro ao executar ferramenta '" ++ tc.name ++ "': " ++
          ("Object of type " ++ t ++ " is not JSON serializable"))) := by
  constructor
  · intro hf
    refine ⟨by simp [executeToolCall, hfind, hargs, hf], ?_, ?_⟩
    · rw [string_append_assoc]
      exact strContains_middle _ _ _
    · exact strContains_right _ _
  · intro hf
    simp [executeToolCall, hfind, hargs, hf, jsonDumps]

/-- C3 witness: a raising callable (`get_price` with `str(e) = "boom"`) and
an unserializable return value (`get_handle` returning a `set`). -/
theorem c3_witness :
    executeToolCall [raisingGetPrice] getPriceCall =
      .err ("Erro ao executar ferramenta '" ++ "get_price" ++ "': " ++
        "boom") ∧
    strContains
      ("Erro ao executar ferramenta '" ++ "get_price" ++ "': " ++ "boom")
      "get_price" ∧
    executeToolCall [unserializableTool] getHandleCall =
      .err ("Erro ao executar ferramenta '" ++ "get_handle" ++ "': " ++
        ("Object of type " ++ "set" ++ " is not JSON serializable")) :=
  have h1 := (c3_tool_failures_become_error_values [raisingGetPrice]
    getPriceCall raisingGetPrice [("ticker", .str "XYZ")] "boom" "set"
    rfl rfl).1 rfl
  have h2 := (c3_tool_failures_become_error_values [unserializableTool]
    getHandleCall unserializableTool [] "unused" "set" rfl rfl).2 rfl
  ⟨h1.1, h1.2.1, h2⟩

/-- C6: a delegation whose `agent_id` resolves to no supervised agent
produces an error string containing that id, and the orchestration loop
proceeds to its next iteration (the error becomes data in
`delegation_results`, `needs_more_processing` stays true, nothing is
raised). -/
theorem c6_unknown_delegation_is_error_data (env : Backend)
    (tools : List ToolInfo) (agents : List SupAgent) (payload : Payload)
    (result : OrionResponse) (sent : Nat) (ds : List Delegation)
    (d : Delegation)
    (htc : result.tool_calls = none)
    (hds : result.agent_delegations = some ds)
    (hmem : d ∈ ds)
    (hunknown : ∀ ag ∈ agents, ag.pyId ≠ d.agent_id) :
    executeAgentDelegation agents d =
      "Erro: Agente com ID " ++ toString d.agent_id ++ " não encontrado" ∧
    strContains (executeAgentDelegation agents d) (toString d.agent_id) ∧
    (iterBody env tools agents payload result sent).needs = true ∧
    DelegationResultEntry.mk d.id (executeAgentDelegation agents d) ∈
      ((iterBody env tools agents payload result sent).payload.delegation_results).getD
        [] := by
  have hfind : agents.find? (fun ag => ag.pyId == d.agent_id) = none := by
    rw [List.find?_eq_none]
    intro ag hag
    simpa using hunknown ag hag
  have hexec : executeAgentDelegation agents d =
      "Erro: Agente com ID " ++ toString d.agent_id ++ " não encontrado" := by
    simp [executeAgentDelegation, hfind]
  refine ⟨hexec, ?_, ?_, ?_⟩
  · rw [hexec]
    exact strContains_middle _ _ _
  · simp [iterBody, htc, hds]
  · simp only [iterBody, htc, hds]
    simp only [Option.getD_some]
    exact List.mem_map_of_mem _ hmem

/-- C6 witness: delegation `d9` targets id 42 while only id 7 is
supervised. -/
theorem c6_witness :
    executeAgentDelegation [redator] c6Delegation =
      "Erro: Agente com ID " ++ toString (42 : Nat) ++ " não encontrado" ∧
    strContains (executeAgentDelegation [redator] c6Delegation)
      (toString (42 : Nat)) ∧
    (iterBody c6Backend [] [redator] freshPayload c6Response 1).needs =
      true ∧
    DelegationResultEntry.mk "d9"
        (executeAgentDelegation [redator] c6Delegation) ∈
      ((iterBody c6Backend [] [redator] freshPayload
        c6Response 1).payload.delegation_results).getD [] :=
  c6_unknown_delegation_is_error_data c6Backend [] [redator] freshPayload
    c6Response 1 [c6Delegation] c6Delegation rfl rfl (by simp)
    (by intro ag hag; simp at hag; subst hag; decide)


/-- C4: the claim describes the embedded-block strategy of
`Analyst._parse_output_to_model`, but the code has no such behaviour to
check: the f-string pattern literal on analystsdk.py line 352 violates
Python's f-string brace rule (its unescaped brace opens a replacement
field whose expression contains a backslash), compiling the module raises
`SyntaxError`, and the extraction cascade never exists to run on any
text.  The claim states the spec's evident intent; the code is a slip. -/
theorem c4_analystsdk_line352_syntax_error :
    pyFStringOk analystLine352Pattern = false := rfl

/-- C5: extraction can raise no extraction failure at all — the module
defining it is rejected at compile time.  Line 352 as written is rejected,
while the same pattern with the object alternative's braces doubled (the
evidently intended spelling of the regex) is accepted: the code is a
one-literal slip away from the behaviour the claim describes. -/
theorem c5_line352_rejected_fixed_accepted :
    pyFStringOk analystLine352Pattern = false ∧
    pyFStringOk analystLine352PatternFixed = true :=
  ⟨rfl, rfl⟩

/-- C7: neither `Analyst.run` nor `Supervisor.run` can surface or recover
from an extraction failure, because neither function ever exists:
analystsdk.py fails to compile (line 352), and supervisorsdk.py imports
analystsdk at module top level, so importing either module raises. -/
theorem c7_run_entry_points_never_importable :
    ".analystsdk" ∈ supervisorsdkImports ∧
    pyFStringOk analystLine352Pattern = false :=
  ⟨by decide, rfl⟩

/-- C8: there is no extraction cascade whose determinism could be checked:
the scan accepts the line-352 literal up to the object alternative and
rejects it as soon as that alternative is appended, so compilation of
analystsdk.py dies at exactly this literal, before any strategy exists to
be selected. -/
theorem c8_failure_localized_to_object_alternative :
    pyFStringOk analystLine352Head = true ∧
    pyFStringOk (analystLine352Head ++ analystFStringObjectAlt) = false :=
  ⟨rfl, rfl⟩

/-- C9: strategy 1 never executes and nothing can fall through it: the
object alternative of line 352 is on its own an invalid f-string fragment,
and its presence aborts compilation of analystsdk.py before
`_parse_output_to_model` is ever defined. -/
theorem c9_object_alternative_invalid_fstring :
    pyFStringOk analystFStringObjectAlt = false := rfl

/-- C10: the Supervisor cannot delegate extraction to an Analyst parser:
supervisorsdk.py imports analystsdk (line 8), whose compilation fails on
the line-352 object alternative, so both extraction entry points are
unavailable for the same reason — the import-time `SyntaxError`. -/
theorem c10_supervisor_import_chain_broken :
    ".analystsdk" ∈ supervisorsdkImports ∧
    pyFStringOk analystFStringObjectAlt = false :=
  ⟨by decide, rfl⟩
